import Mathlib

/-!
Verification of the web evidence collection engine of NoteAgentNews.

The definitions below are a shallow embedding of `services/search_service.py`
(models from `models/news_data.py` and `models/topic.py`).  Text is modelled
as `List Char`; Python's `str.find` / `str.rfind` return `Int` with `-1`
standing for "not found", exactly as in CPython.  Effectful collaborators
(the OpenAI completion, the search engines, the headless browser) enter the
embedding as explicit inputs: the response text plus its url_citation
entries for strategy A, the raw hit list plus a fetch function for
strategy B, and per-engine behaviours `Nat → Option (List RawHit)` (the
argument is the invocation count so far; `none` models a raised exception)
for the backend orchestrator.
-/

namespace NewsAgent

abbrev Str := List Char

/-- Occurrence test: does `pat` occur in `s` starting at index `i` (fully contained)? -/
def matchAt (s pat : Str) (i : Nat) : Bool :=
  decide ((s.drop i).take pat.length = pat)

/-- Python `s.find(pat, start)`: least `i ≥ start` with an occurrence, else `-1`. -/
def pyFind (s pat : Str) (start : Nat) : Int :=
  match (List.range (s.length + 1)).find? (fun i => decide (start ≤ i) && matchAt s pat i) with
  | some i => (i : Int)
  | none => -1

/-- Python `s.rfind(pat, start, stop)`: greatest `i` with `start ≤ i`,
`i + |pat| ≤ stop` and an occurrence at `i`, else `-1`. -/
def pyRfind (s pat : Str) (start stop : Nat) : Int :=
  match ((List.range (stop + 1)).filter
      (fun i => decide (start ≤ i) && decide (i + pat.length ≤ stop) && matchAt s pat i)).getLast? with
  | some i => (i : Int)
  | none => -1

/-- Python slice `s[a:b]` for nonnegative bounds. -/
def pySlice (s : Str) (a b : Nat) : Str := (s.take b).drop a

/-- Python whitespace (the characters `str.strip` removes by default). -/
def isPySpace (c : Char) : Bool :=
  c == ' ' || c == '\n' || c == '\t' || c == '\r' || c == '\x0b' || c == '\x0c'

/-- Python `s.strip()`. -/
def pyStrip (s : Str) : Str :=
  ((s.dropWhile isPySpace).reverse.dropWhile isPySpace).reverse

/-- A url_citation marker: URL, title, and the literal marker text
`([title](url))` as built in `search_topic` (line 114). -/
structure Citation where
  url : Str
  title : Str
  text : Str
deriving DecidableEq, Repr

/-- The sentence terminator `". "` used by the attributor. -/
def periodSpace : Str := ['.', ' ']

/-- The line break used by the attributor. -/
def newlineStr : Str := ['\n']

/-- Span start for a marker occurring at `start_pos`
(`_extract_url_related_content`, lines 180-191): take the 200-character
cutoff; only when that cutoff is strictly positive, refine it to just after
the nearest preceding `". "` or newline in the window. -/
def contextStart (content : Str) (start_pos : Nat) : Nat :=
  let cs0 := start_pos - 200
  if 0 < cs0 then
    let last_period := pyRfind content periodSpace cs0 start_pos
    let last_newline := pyRfind content newlineStr cs0 start_pos
    let last_break := max last_period last_newline
    if last_break ≠ -1 then (last_break + 1).toNat else cs0
  else cs0

/-- Position of the nearest occurrence of a *different* marker's text at or
after `context_end`, defaulting to end of text (lines 193-201). -/
def nextCitationPos (content : Str) (cits : List Citation) (ctext : Str) (context_end : Nat) : Nat :=
  cits.foldl (fun acc other =>
    if other.text = ctext then acc
    else
      let p := pyFind content other.text context_end
      if p ≠ -1 ∧ p < (acc : Int) then p.toNat else acc) content.length

/-- The span computed for one marker (body of the loop in
`_extract_url_related_content`, lines 171-213); `none` when the marker's
literal text does not occur in `content`. -/
def extractSpan (content : Str) (cits : List Citation) (c : Citation) : Option Str :=
  let start_posI := pyFind content c.text 0
  if start_posI = -1 then none
  else
    let start_pos := start_posI.toNat
    let context_end := start_pos + c.text.length
    let cs := contextStart content start_pos
    let ncp := nextCitationPos content cits c.text context_end
    let related := pyStrip (pySlice content cs ncp)
    if related.length < 100 ∧ ncp < content.length then
      let next_period := pyFind content periodSpace ncp
      if next_period ≠ -1 then some (pyStrip (pySlice content cs (next_period.toNat + 1)))
      else some related
    else some related

/-- Python dict assignment `m[k] = v` on an insertion-ordered association list:
replace the first entry with key `k`, else append. -/
def dictSet : List (Str × Str) → Str → Str → List (Str × Str)
  | [], k, v => [(k, v)]
  | p :: rest, k, v => if p.1 = k then (k, v) :: rest else p :: dictSet rest k v

/-- Python dict lookup `m.get(k)`. -/
def dictGet (m : List (Str × Str)) (k : Str) : Option Str :=
  (m.find? (fun p => decide (p.1 = k))).map (fun p => p.2)

/-- The loop of `_extract_url_related_content` over the marker list, threading
the url-to-span dict. -/
def extractFold (content : Str) (full : List Citation) : List Citation → List (Str × Str) → List (Str × Str)
  | [], m => m
  | c :: rest, m =>
    match extractSpan content full c with
    | none => extractFold content full rest m
    | some sp => extractFold content full rest (dictSet m c.url sp)

/-- `OpenAISearchService._extract_url_related_content` (lines 155-215). -/
def extractUrlRelatedContent (content : Str) (url_citations : List Citation) : List (Str × Str) :=
  extractFold content url_citations url_citations []

/-- A url_citation entry of the completion message (url and title fields). -/
structure Cite where
  url : Str
  title : Str
deriving DecidableEq, Repr

/-- `models/news_data.py` `NewsSource` (publication timestamp omitted: it is
never set by the collection engine). -/
structure NewsSource where
  url : Str
  title : Str
  content : Str
deriving DecidableEq, Repr

/-- `models/news_data.py` `NewsData` as produced by the collectors:
`topic_id` plus the ordered source list. -/
structure NewsData where
  topic_id : Option Nat
  sources : List NewsSource
deriving DecidableEq, Repr

/-- `models/topic.py` `Topic` (timestamps omitted; `description = none`
models Python `None`). -/
structure Topic where
  id : Option Nat
  title : Str
  description : Option Str
deriving DecidableEq, Repr

/-- The marker text `([title](url))` built from a url_citation (line 114). -/
def mkCitationText (title url : Str) : Str :=
  ("([").data ++ title ++ ("](").data ++ url ++ ("))").data

/-- The Citation records built from the message's url_citation entries
(lines 106-116). -/
def citationsOf (cites : List Cite) : List Citation :=
  cites.map (fun a => ⟨a.url, a.title, mkCitationText a.title a.url⟩)

/-- The ellipsis appended to the 300-character filler (line 129). -/
def ellipsis : Str := ("...").data

/-- Source-list construction of `OpenAISearchService.search_topic`
(lines 121-151): one source per citation with its span (or the 300-character
filler), then the no-source and no-related-content fallbacks. -/
def openaiSources (topic : Topic) (content : Str) (cits : List Citation)
    (url_contents : List (Str × Str)) : List NewsSource :=
  match cits.map (fun c =>
      ({ url := c.url, title := c.title,
         content := (dictGet url_contents c.url).getD (content.take 300 ++ ellipsis) } : NewsSource)) with
  | [] => [{ url := [], title := topic.title, content := content }]
  | s0 :: rest =>
    if url_contents.all (fun p => p.2.isEmpty) then
      { url := s0.url, title := s0.title, content := content } :: rest
    else s0 :: rest

/-- `OpenAISearchService.search_topic` after the completion returned
(lines 93-153), with the response text and its url_citation entries as
inputs; when the entry list is empty the attribution block is skipped. -/
def openaiSearchTopic (topic : Topic) (content : Str) (cites : List Cite) : NewsData :=
  let url_citations := citationsOf cites
  let url_contents := if cites.isEmpty then [] else extractUrlRelatedContent content url_citations
  ⟨topic.id, openaiSources topic content (if cites.isEmpty then [] else url_citations) url_contents⟩

/-- A raw search hit: the url/title dict entries (lines 329-331, with `""`
defaults). -/
structure RawHit where
  url : Str
  title : Str
deriving DecidableEq, Repr

/-- Python `s.split("/")`. -/
def splitOnSlash : Str → List Str
  | [] => [[]]
  | c :: rest =>
    let r := splitOnSlash rest
    if c = '/' then [] :: r
    else
      match r with
      | [] => [[c]]
      | h :: t => (c :: h) :: t

/-- Python `s.capitalize()`: first character upper-cased, the rest lower-cased. -/
def pyCapitalize : Str → Str
  | [] => []
  | c :: rest => c.toUpper :: rest.map Char.toLower

/-- Title fallback `url.split("/")[-1].replace("-", " ").capitalize() or "無題"`
(line 335). -/
def humanizeTitle (url : Str) : Str :=
  let lastSeg := ((splitOnSlash url).getLast?).getD []
  let cap := pyCapitalize (lastSeg.map (fun c => if c = '-' then ' ' else c))
  if cap.isEmpty then ("無題").data else cap

/-- The fixed could-not-retrieve-information message (line 358). -/
def unavailableMsg (title : Str) : Str :=
  ("トピック「").data ++ title ++ ("」に関する情報を取得できませんでした。別の検索方法を試してください。").data

/-- The per-hit loop of `WebSearchService.search_topic` (lines 326-349):
title fallback, fetch when the URL is nonempty, keep only hits with both a
URL and nonempty fetched content. -/
def webBuildSources (fetch : Str → Str) : List RawHit → List NewsSource
  | [] => []
  | result :: rest =>
    let url := result.url
    let title := if result.title.isEmpty then humanizeTitle url else result.title
    let content := if url.isEmpty then [] else fetch url
    (if ¬ url.isEmpty ∧ ¬ content.isEmpty then [⟨url, title, content⟩] else [])
      ++ webBuildSources fetch rest

/-- `WebSearchService.search_topic` (lines 305-368), with the orchestrated
search results and the content fetcher as inputs. -/
def webSearchTopic (topic : Topic) (search_results : List RawHit) (fetch : Str → Str) : NewsData :=
  let collected := webBuildSources fetch search_results
  ⟨topic.id,
    if collected.isEmpty then [⟨[], topic.title, unavailableMsg topic.title⟩] else collected⟩

/-- A backend behaviour: invocation count so far ↦ raised exception (`none`)
or returned hit list. -/
abbrev EngineBehavior := Nat → Option (List RawHit)

/-- Invocation count recorded for an engine name. -/
def getCount (st : List (Str × Nat)) (name : Str) : Nat :=
  ((st.find? (fun p => decide (p.1 = name))).map (fun p => p.2)).getD 0

/-- Record one more invocation of an engine. -/
def incCount (st : List (Str × Nat)) (name : Str) : List (Str × Nat) :=
  if st.any (fun p => decide (p.1 = name)) then
    st.map (fun p => if p.1 = name then (p.1, p.2 + 1) else p)
  else st ++ [(name, 1)]

/-- Lookup in the `_search_engines` dict. -/
def lookupEngine (engines : List (Str × EngineBehavior)) (name : Str) : Option EngineBehavior :=
  (engines.find? (fun p => decide (p.1 = name))).map (fun p => p.2)

/-- One pass of the loop in `_perform_web_search` (lines 387-406): each engine
of the order list is invoked once, an exception is caught and logged, the
first nonempty result list is returned, otherwise the empty list. -/
def performPass (engines : List (Str × EngineBehavior)) :
    List Str → List (Str × Nat) → List (Str × Nat) × List RawHit
  | [], st => (st, [])
  | name :: rest, st =>
    match lookupEngine engines name with
    | none => performPass engines rest st
    | some behavior =>
      let st' := incCount st name
      match behavior (getCount st name) with
      | none => performPass engines rest st'
      | some results =>
        if results.isEmpty then performPass engines rest st' else (st', results)

/-- The tenacity retry wrapper `stop_after_attempt(n)`: re-run the body while
it raises (`none` flag), up to `n` executions; on exhaustion the exception
propagates (overall `none`). -/
def retryRun (body : List (Str × Nat) → List (Str × Nat) × Option (List RawHit)) :
    Nat → List (Str × Nat) → List (Str × Nat) × Option (List RawHit)
  | 0, st => (st, none)
  | n + 1, st =>
    match body st with
    | (st', none) => retryRun body n st'
    | (st', some r) => (st', some r)

/-- `WebSearchService._perform_web_search` (lines 370-406):
`retry(stop_after_attempt(3))` around the engine pass; the pass suppresses
every engine exception internally, so its body never raises. -/
def performWebSearch (engines : List (Str × EngineBehavior)) (order : List Str)
    (st : List (Str × Nat)) : List (Str × Nat) × Option (List RawHit) :=
  retryRun (fun s => let r := performPass engines order s; (r.1, some r.2)) 3 st

/-- Python `s.lower()`. -/
def pyLower (s : Str) : Str := s.map Char.toLower

/-- The key of the Google engine in `_search_engines`. -/
def googleKey : Str := ("google").data

/-- The key of the DuckDuckGo engine in `_search_engines`. -/
def duckKey : Str := ("duckduckgo").data

/-- Engine-order configuration of `WebSearchService.__init__` (lines 287-303):
default order, optionally overridden by the SEARCH_ENGINE environment value
(a falsy/empty value is ignored, an unrecognized one leaves the default). -/
def initEngineOrder (searchEngineEnv : Option Str) : List Str :=
  let defaultOrder := [googleKey, duckKey]
  match searchEngineEnv with
  | none => defaultOrder
  | some s =>
    if s.isEmpty then defaultOrder
    else
      let p := pyLower s
      if p ∈ [googleKey, duckKey] then p :: defaultOrder.filter (fun e => e ≠ p)
      else defaultOrder

/-!
Concrete scenarios used by counterexamples and witnesses.
-/

/-- The span-start rule exactly as the spec words it: always refine the
200-character cutoff to just after the nearest preceding `". "` or newline
in the window (no positivity guard on the cutoff). -/
def claimedContextStart (content : Str) (start_pos : Nat) : Nat :=
  let w := start_pos - 200
  let last_period := pyRfind content periodSpace w start_pos
  let last_newline := pyRfind content newlineStr w start_pos
  let last_break := max last_period last_newline
  if last_break ≠ -1 then (last_break + 1).toNat else w

/-- The C4 scenario text, exactly as the spec gives it (the marker texts
`([Cite1](u1))` do not occur in it). -/
def c4Text : Str := ("A text. [Cite1](u1) more text. [Cite2](u2) tail.").data

/-- The C4 marker for u1. -/
def c4M1 : Citation := ⟨("u1").data, ("Cite1").data, ("([Cite1](u1))").data⟩

/-- The C4 marker for u2. -/
def c4M2 : Citation := ⟨("u2").data, ("Cite2").data, ("([Cite2](u2))").data⟩

/-- The C4 scenario text repaired so that both parenthesized marker texts
actually occur. -/
def c4TextB : Str := ("A text. ([Cite1](u1)) more text. ([Cite2](u2)) tail.").data

/-- A text whose marker occurs at position 5, inside the first 200
characters, with a sentence boundary `". "` before it. -/
def c6Text : Str := ("A. B ([T](u))").data

/-- The marker of the C6 scenario. -/
def c6M : Citation := ⟨("u").data, ("T").data, ("([T](u))").data⟩

/-- A text with two adjacent markers and a `". "` after the second, so the
short-span extension of C7 fires. -/
def c7Text : Str := ("([A](a)) xx ([B](b)) yy. end").data

/-- First marker of the C7 scenario. -/
def c7M1 : Citation := ⟨("a").data, ("A").data, ("([A](a))").data⟩

/-- Second marker of the C7 scenario. -/
def c7M2 : Citation := ⟨("b").data, ("B").data, ("([B](b))").data⟩

/-- The C8 collision text: marker text `X` occurs, `Y` does not. -/
def c8Text : Str := ("X bla").data

/-- A marker that resolves, sharing its URL with `c8M2`. -/
def c8M1 : Citation := ⟨("u").data, ("t1").data, ("X").data⟩

/-- A marker whose text does not occur, sharing its URL with `c8M1`. -/
def c8M2 : Citation := ⟨("u").data, ("t2").data, ("Y").data⟩

/-- A lone marker whose text does not occur anywhere. -/
def c8SoloM : Citation := ⟨("u").data, ("t").data, ("ZZZ").data⟩

/-- The C3 scenario topic. -/
def c3Topic : Topic := ⟨some 1, ("T").data, none⟩

/-- The C3 scenario response text (no marker text occurs in it). -/
def c3Text : Str := ("short text").data

/-- The first C3 citation entry. -/
def c3A : Cite := ⟨("u1").data, ("T1").data⟩

/-- The remaining C3 citation entries. -/
def c3Rest : List Cite := [⟨("u2").data, ("T2").data⟩]

/-- A backend behaviour that raises on every invocation. -/
def alwaysRaise : EngineBehavior := fun _ => none

/-- The single hit returned by the second backend of the C2 scenario. -/
def oneHit : RawHit := ⟨("https://example.com/a").data, ("A").data⟩

/-- A backend behaviour returning `[oneHit]` on every invocation (in
particular on its first). -/
def secondEngineHits : EngineBehavior := fun _ => some [oneHit]

/-- The C2 engine dict: backend 1 always raises, backend 2 returns a hit. -/
def c2Engines : List (Str × EngineBehavior) :=
  [(googleKey, alwaysRaise), (duckKey, secondEngineHits)]

/-!
Claim theorems.
-/

/-- C5: in strategy B, when the orchestrated search returns zero raw hits,
the returned NewsData contains exactly one source whose URL is empty, whose
title is the topic title, and whose content is the fixed
could-not-retrieve-information message. -/
theorem C5_zero_hits_placeholder (topic : Topic) (fetch : Str → Str) :
    (webSearchTopic topic [] fetch).sources =
      [⟨[], topic.title, unavailableMsg topic.title⟩] := rfl

/-- C10: the citation attributor is deterministic and idempotent — it is a
pure function of the (text, markers) pair, so running it twice on the same
pair yields identical url-to-span mappings. -/
theorem C10_attribution_deterministic (content : Str) (cits : List Citation) :
    extractUrlRelatedContent content cits = extractUrlRelatedContent content cits := rfl

/-- C9: a recognized preferred-engine value is promoted to position 0 of the
engine order without removing or duplicating the other backend, and an
unrecognized value leaves the default order unchanged. -/
theorem C9_engine_order :
    initEngineOrder none = [googleKey, duckKey] ∧
    initEngineOrder (some googleKey) = [googleKey, duckKey] ∧
    initEngineOrder (some duckKey) = [duckKey, googleKey] ∧
    ∀ s : Str, pyLower s ∉ [googleKey, duckKey] →
      initEngineOrder (some s) = [googleKey, duckKey] := by
  refine ⟨rfl, by decide, by decide, ?_⟩
  intro s h
  simp only [initEngineOrder]
  by_cases he : s.isEmpty
  · simp [he]
  · simp only [he, if_false, Bool.false_eq_true]
    rw [if_neg h]

/-- Witness for C9: the unrecognized value branch at the concrete value
"bing". -/
theorem C9_engine_order_witness :
    initEngineOrder (some (("bing").data)) = [googleKey, duckKey] :=
  C9_engine_order.2.2.2 (("bing").data) (by decide)

/-- C4 counterexample: on the exact scenario the claim states, neither
parenthesized marker text `([Cite1](u1))` / `([Cite2](u2))` occurs in the
given fullText, so the attributor returns the empty mapping — in particular
there is no span for u1 at all, contrary to the claim. -/
theorem C4_counterexample :
    extractUrlRelatedContent c4Text [c4M1, c4M2] = [] ∧
    dictGet (extractUrlRelatedContent c4Text [c4M1, c4M2]) (("u1").data) = none := by decide

/-- C4 amended: on the scenario text repaired so that both marker texts
occur, the span for u1 is exactly the (stripped) text preceding the u2
marker occurrence — it has length 32 while the u2 marker occurs at
position 33, so it ends before that occurrence — and the span for u2
extends to end-of-text (here the whole text). -/
theorem C4_amended_spans :
    dictGet (extractUrlRelatedContent c4TextB [c4M1, c4M2]) (("u1").data) =
      some (("A text. ([Cite1](u1)) more text.").data) ∧
    dictGet (extractUrlRelatedContent c4TextB [c4M1, c4M2]) (("u2").data) = some c4TextB ∧
    pyFind c4TextB c4M2.text 0 = (33 : Int) ∧
    (("A text. ([Cite1](u1)) more text.").data).length = 32 := by decide

/-- C6 counterexample: the marker occurs at position 5, within the first 200
characters; a `". "` boundary sits at position 1 inside the backward window,
so the claim demands a span start of 2 (span `"B ([T](u))"`), but the code
skips the boundary search whenever the 200-character cutoff reaches the
start of the text and emits the span from position 0 — the whole text,
including the sentence before the boundary. -/
theorem C6_counterexample :
    pyFind c6Text c6M.text 0 = (5 : Int) ∧
    contextStart c6Text 5 = 0 ∧
    claimedContextStart c6Text 5 = 2 ∧
    dictGet (extractUrlRelatedContent c6Text [c6M]) (("u").data) = some c6Text ∧
    pyStrip (pySlice c6Text 2 c6Text.length) = ("B ([T](u))").data ∧
    c6Text ≠ ("B ([T](u))").data := by decide

/-- C6 amended: the backward-window boundary refinement behaves as the claim
states only for markers occurring more than 200 characters into the text;
then the code's span start agrees with the claim's rule (nearest preceding
`". "` or line break in the window, else the 200-character cutoff). For
markers at position ≤ 200 the span simply starts at 0 with no boundary
search (see the counterexample). -/
theorem C6_amended_window_start (content : Str) (start_pos : Nat) (h : 200 < start_pos) :
    contextStart content start_pos = claimedContextStart content start_pos := by
  have h0 : 0 < start_pos - 200 := by omega
  simp [contextStart, claimedContextStart, h0]

/-- Witness for the amended C6 at a marker position strictly beyond the
200-character window. -/
theorem C6_amended_witness :
    contextStart (List.replicate 250 'a') 201 = claimedContextStart (List.replicate 250 'a') 201 :=
  C6_amended_window_start (List.replicate 250 'a') 201 (by decide)

/-- C8 counterexample: marker `c8M2`'s text `Y` does not occur in the text,
yet its URL is present in the returned mapping, because the other marker
`c8M1` shares the same URL and does resolve a span. -/
theorem C8_counterexample :
    pyFind c8Text c8M2.text 0 = -1 ∧
    dictGet (extractUrlRelatedContent c8Text [c8M1, c8M2]) c8M2.url = some (("X bla").data) := by decide

/-- A marker whose literal text is not found yields no span. -/
theorem extractSpan_none_of_not_found (content : Str) (full : List Citation) (c : Citation)
    (h : pyFind content c.text 0 = -1) : extractSpan content full c = none := by
  simp [extractSpan, h]

/-- Updating one key of the dict leaves lookups of other keys unchanged. -/
theorem dictGet_dictSet_ne (m : List (Str × Str)) (k v u : Str) (h : k ≠ u) :
    dictGet (dictSet m k v) u = dictGet m u := by
  induction m with
  | nil => simp [dictSet, dictGet, List.find?, h]
  | cons p rest ih =>
    by_cases hp : p.1 = k
    · simp [dictSet, dictGet, List.find?, hp, h]
    · simp only [dictSet, if_neg hp]
      by_cases hu : p.1 = u
      · simp [dictGet, List.find?, hu]
      · simpa [dictGet, List.find?, hu] using ih

/-- If a key is absent from the accumulator and every folded marker carrying
that key yields no span, the key is absent from the folded dict. -/
theorem dictGet_extractFold_none (content : Str) (full : List Citation) (u : Str) :
    ∀ (l : List Citation) (m : List (Str × Str)),
      dictGet m u = none →
      (∀ c' ∈ l, c'.url = u → extractSpan content full c' = none) →
      dictGet (extractFold content full l m) u = none := by
  intro l
  induction l with
  | nil => intro m hm _; simpa [extractFold] using hm
  | cons c rest ih =>
    intro m hm hl
    simp only [extractFold]
    cases hsp : extractSpan content full c with
    | none => exact ih m hm (fun c' h' hu => hl c' (List.mem_cons_of_mem _ h') hu)
    | some sp =>
      have hcu : c.url ≠ u := by
        intro he
        have hnone := hl c (List.mem_cons_self _ _) he
        rw [hnone] at hsp
        cases hsp
      exact ih (dictSet m c.url sp)
        (by rw [dictGet_dictSet_ne _ _ _ _ hcu]; exact hm)
        (fun c' h' hu => hl c' (List.mem_cons_of_mem _ h') hu)

/-- C8 amended: a marker whose literal text does not occur in fullText is
skipped (no span produced) and attribution completes normally (the
attributor is a total function); its URL is absent from the returned
mapping provided no other marker with the same URL resolves a span — when
another marker shares the URL and does resolve, the URL is present (see the
counterexample). -/
theorem C8_amended_absent_url (content : Str) (cits : List Citation) (c : Citation)
    (_hmem : c ∈ cits) (_hnf : pyFind content c.text 0 = -1)
    (hall : ∀ c' ∈ cits, c'.url = c.url → pyFind content c'.text 0 = -1) :
    dictGet (extractUrlRelatedContent content cits) c.url = none :=
  dictGet_extractFold_none content cits c.url cits [] rfl
    (fun c' h' hu => extractSpan_none_of_not_found _ _ _ (hall c' h' hu))

/-- Witness for the amended C8: a lone unfound marker leaves its URL out of
the mapping. -/
theorem C8_amended_witness :
    dictGet (extractUrlRelatedContent (("hello").data) [c8SoloM]) c8SoloM.url = none :=
  C8_amended_absent_url (("hello").data) [c8SoloM] c8SoloM (by decide) (by decide) (by decide)

/-- C7: for a marker found at `sp` whose computed span (stripped) is shorter
than 100 characters while its end position lies strictly before end-of-text,
the attributor extends the span end to just past the next `". "` found at or
after the current end, and leaves the span unchanged when no such terminator
exists. -/
theorem C7_short_span_extended (content : Str) (cits : List Citation) (c : Citation) (sp : Nat)
    (hfind : pyFind content c.text 0 = (sp : Int))
    (hshort : (pyStrip (pySlice content (contextStart content sp)
        (nextCitationPos content cits c.text (sp + c.text.length)))).length < 100)
    (hmore : nextCitationPos content cits c.text (sp + c.text.length) < content.length) :
    (∀ p : Nat,
        pyFind content periodSpace (nextCitationPos content cits c.text (sp + c.text.length)) = (p : Int) →
        extractSpan content cits c =
          some (pyStrip (pySlice content (contextStart content sp) (p + 1)))) ∧
    (pyFind content periodSpace (nextCitationPos content cits c.text (sp + c.text.length)) = -1 →
        extractSpan content cits c =
          some (pyStrip (pySlice content (contextStart content sp)
            (nextCitationPos content cits c.text (sp + c.text.length))))) := by
  have hne : (sp : Int) ≠ -1 := by omega
  constructor
  · intro p hp
    have hpne : (p : Int) ≠ -1 := by omega
    simp [extractSpan, hfind, hne, Int.toNat_natCast, hshort, hmore, hp, hpne]
  · intro hp
    simp [extractSpan, hfind, hne, Int.toNat_natCast, hshort, hmore, hp]

/-- Witness for C7 at a concrete text where the extension fires: the span of
the first marker ends at the second marker (11 characters), so it is
extended past the `". "` at position 23. -/
theorem C7_witness :
    extractSpan c7Text [c7M1, c7M2] c7M1 = some (("([A](a)) xx ([B](b)) yy.").data) :=
  (C7_short_span_extended c7Text [c7M1, c7M2] c7M1 0 (by decide) (by decide) (by decide)).1
    23 (by decide)

/-- Every openaiSources result is nonempty. -/
theorem openaiSources_length_pos (t : Topic) (content : Str) (cits : List Citation)
    (m : List (Str × Str)) : 1 ≤ (openaiSources t content cits m).length := by
  cases cits with
  | nil => simp [openaiSources]
  | cons c cs =>
    simp only [openaiSources, List.map_cons]
    split <;> simp

/-- With a fetcher that always fails, no raw hit survives the loop. -/
theorem webBuildSources_fetch_empty (hits : List RawHit) :
    webBuildSources (fun _ => []) hits = [] := by
  induction hits with
  | nil => rfl
  | cons h t ih => simp [webBuildSources, ih]

/-- C1: for every topic, both strategies return a source sequence of length
at least 1; when no sources could be derived (no citation entries in
strategy A, nothing fetchable in strategy B) a single synthetic source with
empty URL is substituted. -/
theorem C1_collect_nonempty (topic : Topic) (content : Str) (cites : List Cite)
    (hits : List RawHit) (fetch : Str → Str) :
    1 ≤ (openaiSearchTopic topic content cites).sources.length ∧
    1 ≤ (webSearchTopic topic hits fetch).sources.length ∧
    (openaiSearchTopic topic content []).sources = [⟨[], topic.title, content⟩] ∧
    (webSearchTopic topic hits (fun _ => [])).sources =
      [⟨[], topic.title, unavailableMsg topic.title⟩] := by
  refine ⟨openaiSources_length_pos _ _ _ _, ?_, rfl, ?_⟩
  · cases hl : webBuildSources fetch hits with
    | nil => simp [webSearchTopic, hl]
    | cons s rest => simp [webSearchTopic, hl]
  · simp [webSearchTopic, webBuildSources_fetch_empty]

/-- C3 counterexample: citation entries exist and no marker yields a span
(the marker texts do not occur in the 10-character response), yet only the
FIRST source carries the full response text: the second source's content is
the 300-character filler `content[:300] + "..."`, which differs from the
full text. -/
theorem C3_counterexample :
    (openaiSearchTopic c3Topic c3Text (c3A :: c3Rest)).sources.map (fun s => s.content) =
      [c3Text, c3Text ++ ellipsis] ∧
    c3Text ++ ellipsis ≠ c3Text := by decide

/-- C3 amended: when citation entries exist but no marker yields a nonempty
span, the collector builds one source per marker whose content is that
marker's (possibly empty) span when present, else the first 300 characters
of the full text followed by "..."; the first source's content is then
overwritten with the full response text (so only the first source carries
the full text, not every source). -/
theorem C3_amended_filler_sources (topic : Topic) (content : Str) (a : Cite) (rest : List Cite)
    (hempty : (extractUrlRelatedContent content (citationsOf (a :: rest))).all
      (fun p => p.2.isEmpty) = true) :
    (openaiSearchTopic topic content (a :: rest)).sources =
      ⟨a.url, a.title, content⟩ ::
        (citationsOf rest).map (fun c =>
          ⟨c.url, c.title,
            (dictGet (extractUrlRelatedContent content (citationsOf (a :: rest))) c.url).getD
              (content.take 300 ++ ellipsis)⟩) := by
  have key : ∀ m : List (Str × Str), m.all (fun p => p.2.isEmpty) = true →
      openaiSources topic content (citationsOf (a :: rest)) m =
        ⟨a.url, a.title, content⟩ ::
          (citationsOf rest).map (fun c =>
            ⟨c.url, c.title, (dictGet m c.url).getD (content.take 300 ++ ellipsis)⟩) := by
    intro m hm
    show openaiSources topic content
        (⟨a.url, a.title, mkCitationText a.title a.url⟩ :: citationsOf rest) m = _
    simp only [openaiSources, List.map_cons]
    rw [if_pos hm]
  exact key _ hempty

/-- Witness for the amended C3 at the concrete C3 scenario. -/
theorem C3_amended_witness :
    (openaiSearchTopic c3Topic c3Text (c3A :: c3Rest)).sources =
      ⟨c3A.url, c3A.title, c3Text⟩ ::
        (citationsOf c3Rest).map (fun c =>
          ⟨c.url, c.title,
            (dictGet (extractUrlRelatedContent c3Text (citationsOf (c3A :: c3Rest))) c.url).getD
              (c3Text.take 300 ++ ellipsis)⟩) :=
  C3_amended_filler_sources c3Topic c3Text c3A c3Rest (by decide)

/-- C2 counterexample: with backend 1 raising on every invocation and
backend 2 returning one hit on its first invocation, the orchestrated search
does return backend 2's hit list, but backend 1 is attempted exactly once,
not 3 times: the retry wrapper sits around the whole engine pass, and the
pass suppresses every engine exception internally, so the wrapper never sees
a failure and never retries. -/
theorem C2_counterexample :
    (performWebSearch c2Engines [googleKey, duckKey] []).2 = some [oneHit] ∧
    getCount (performWebSearch c2Engines [googleKey, duckKey] []).1 googleKey = 1 ∧
    getCount (performWebSearch c2Engines [googleKey, duckKey] []).1 googleKey ≠ 3 := by
  refine ⟨rfl, rfl, by decide⟩

/-- C2 amended: if backend 1 raises on every invocation and backend 2
returns a nonempty hit list on its first invocation, the final result equals
backend 2's hit list and backend 1 was attempted exactly once (the
per-backend exponential-backoff retry the claim describes does not exist:
the retry decorator wraps the whole orchestration, whose internal exception
suppression keeps it from ever firing). -/
theorem C2_amended_first_backend_once (b1 b2 : EngineBehavior) (hits : List RawHit)
    (h1 : ∀ k, b1 k = none) (h2 : b2 0 = some hits) (hne : hits ≠ []) :
    (performWebSearch [(googleKey, b1), (duckKey, b2)] [googleKey, duckKey] []).2 = some hits ∧
    getCount (performWebSearch [(googleKey, b1), (duckKey, b2)] [googleKey, duckKey] []).1
      googleKey = 1 := by
  have e1 : lookupEngine [(googleKey, b1), (duckKey, b2)] googleKey = some b1 := by
    simp [lookupEngine, List.find?]
  have e2 : lookupEngine [(googleKey, b1), (duckKey, b2)] duckKey = some b2 := by
    simp [lookupEngine, List.find?, googleKey, duckKey]
  have e3 : getCount ([] : List (Str × Nat)) googleKey = 0 := rfl
  have e4 : incCount [] googleKey = [(googleKey, 1)] := rfl
  have e5 : getCount [(googleKey, 1)] duckKey = 0 := by
    simp [getCount, List.find?, googleKey, duckKey]
  have e6 : incCount [(googleKey, 1)] duckKey = [(googleKey, 1), (duckKey, 1)] := by
    simp [incCount, googleKey, duckKey]
  have hlne : hits.isEmpty = false := by
    cases hits with
    | nil => exact absurd rfl hne
    | cons a t => rfl
  have hpass : performPass [(googleKey, b1), (duckKey, b2)] [googleKey, duckKey] [] =
      ([(googleKey, 1), (duckKey, 1)], hits) := by
    simp only [performPass, e1, e2, e3, e4, e5, e6, h1 0, h2, hlne]
    simp [hlne]
  have hrun : performWebSearch [(googleKey, b1), (duckKey, b2)] [googleKey, duckKey] [] =
      ([(googleKey, 1), (duckKey, 1)], some hits) := by
    simp only [performWebSearch, retryRun, hpass]
  rw [hrun]
  exact ⟨rfl, rfl⟩

/-- Witness for the amended C2 at the concrete always-raising /
one-hit-first-try behaviours. -/
theorem C2_amended_witness :
    (performWebSearch [(googleKey, alwaysRaise), (duckKey, secondEngineHits)]
        [googleKey, duckKey] []).2 = some [oneHit] ∧
    getCount (performWebSearch [(googleKey, alwaysRaise), (duckKey, secondEngineHits)]
        [googleKey, duckKey] []).1 googleKey = 1 :=
  C2_amended_first_backend_once alwaysRaise secondEngineHits [oneHit]
    (fun _ => rfl) rfl (by decide)

end NewsAgent
